import Mathlib

/-!
Shallow embedding of the presence/session engine of the `is-he-online`
repository (`packages/api/src/redis-manager.ts` and
`packages/api/src/server.ts`).  The Redis key/value store is modelled as a
record with one field per logical key; every stored value carries an
optional absolute expiry timestamp (milliseconds), mirroring Redis `SET`
(no expiry) and `SETEX k secs v` (expiry at `now + secs * 1000`).  Each
operation takes the current wall-clock time `now : Nat` explicitly, playing
the role of the `Date.now()` calls in the source.
-/

namespace IsHeOnline

/-- JavaScript truthiness for an optional number: `undefined`, `null` and
`0` are falsy. -/
def jsTruthyNat : Option Nat → Bool
  | none => false
  | some n => n != 0

/-- JavaScript `a || b` on optional numbers (`0` counts as falsy). -/
def jsOrNat (a b : Option Nat) : Option Nat :=
  if jsTruthyNat a then a else b

/-- JavaScript `a || d` where the right operand is a plain number, so the
result is always a number. -/
def jsOrNatD (a : Option Nat) (d : Nat) : Nat :=
  match a with
  | some n => if n != 0 then n else d
  | none => d

/-- Git repository information inside a `VSCodeActivity.workspace`. -/
structure GitRepo where
  name : String
  remote : String
  branch : String
deriving DecidableEq

/-- The `workspace` part of a `VSCodeActivity` payload. -/
structure Workspace where
  name : String
  path : String
  gitRepo : Option GitRepo
deriving DecidableEq

/-- A cursor position (`{ line, character }`). -/
structure CursorPos where
  line : Nat
  character : Nat
deriving DecidableEq

/-- A selection range; the source field `end` is a Lean keyword and is
rendered as `stop`. -/
structure SelectionRange where
  start : CursorPos
  stop : CursorPos
deriving DecidableEq

/-- The `editor` part of a `VSCodeActivity` payload. -/
structure EditorState where
  fileName : String
  filePath : String
  language : String
  lineNumber : Nat
  columnNumber : Nat
  selection : SelectionRange
deriving DecidableEq

/-- The editor-activity payload (`VSCodeActivity` in `types.ts`). -/
structure VSCodeActivity where
  workspace : Workspace
  editor : EditorState
  timestamp : Nat
  sessionId : String
deriving DecidableEq

/-- Nested `timestamps` of a Discord activity item; the source field `end`
is rendered as `stop`. -/
structure DiscordTimestamps where
  start : Option Nat
  stop : Option Nat
deriving DecidableEq

/-- One element of `UserActivity.activities`. -/
structure DiscordActivityItem where
  name : String
  type : Nat
  details : Option String
  state : Option String
  timestamps : Option DiscordTimestamps
deriving DecidableEq

/-- The chat-platform presence payload (`UserActivity` in `types.ts`). -/
structure UserActivity where
  userId : String
  username : String
  discriminator : String
  status : String
  activities : List DiscordActivityItem
  timestamp : Nat
deriving DecidableEq

/-- The JSON object written under `discord:status`. -/
structure DiscordStatus where
  current_status : String
  last_seen : Nat
  online_since : Option Nat
  offline_since : Option Nat
deriving DecidableEq

/-- The JSON object written under `vscode:status`. -/
structure VSCodeStatus where
  is_active : Bool
  last_seen : Nat
  online_since : Option Nat
  offline_since : Option Nat
  sessionId : Option String
deriving DecidableEq

/-- The JSON object written under `vscode:session`.  `endTime`/`endReason`
are absent on a freshly started session. -/
structure Session where
  sessionId : String
  startTime : Nat
  lastHeartbeat : Nat
  status : String
  endTime : Option Nat
  endReason : Option String
deriving DecidableEq

/-- A stored Redis value together with its optional absolute expiry time
in milliseconds. -/
structure Entry (α : Type) where
  value : α
  expireAt : Option Nat
deriving DecidableEq

/-- Reading a possibly expired entry at time `now`: an entry whose expiry
has passed behaves as an absent key. -/
def readEntry {α : Type} (now : Nat) : Option (Entry α) → Option α
  | none => none
  | some e =>
    match e.expireAt with
    | none => some e.value
    | some exp => if now < exp then some e.value else none

/-- The whole Redis key space used by `RedisManager`: one field per logical
key, plus the per-session rate-limit keys
(`vscode:activity:ratelimit:{sessionId}`) as an association list. -/
structure RedisState where
  discordActivity : Option (Entry UserActivity)
  discordStatus : Option (Entry DiscordStatus)
  discordHeartbeat : Option (Entry Nat)
  vscodeActivity : Option (Entry VSCodeActivity)
  vscodeStatus : Option (Entry VSCodeStatus)
  vscodeHeartbeat : Option (Entry Nat)
  vscodeSession : Option (Entry Session)
  rateLimit : List (String × Entry Nat)
deriving DecidableEq

/-- The state of an empty Redis instance. -/
def emptyState : RedisState :=
  { discordActivity := none, discordStatus := none, discordHeartbeat := none
    vscodeActivity := none, vscodeStatus := none, vscodeHeartbeat := none
    vscodeSession := none, rateLimit := [] }

/-- Source `getDiscordStatus`. -/
def getDiscordStatus (st : RedisState) (now : Nat) : Option DiscordStatus :=
  readEntry now st.discordStatus

/-- Source `getVSCodeStatus`. -/
def getVSCodeStatus (st : RedisState) (now : Nat) : Option VSCodeStatus :=
  readEntry now st.vscodeStatus

/-- Source `getVSCodeSession`. -/
def getVSCodeSession (st : RedisState) (now : Nat) : Option Session :=
  readEntry now st.vscodeSession

/-- The value currently stored under `discord:status`, ignoring expiry. -/
def storedDiscordStatus (st : RedisState) : Option DiscordStatus :=
  st.discordStatus.map (fun e => e.value)

/-- The value currently stored under `vscode:status`, ignoring expiry. -/
def storedVSCodeStatus (st : RedisState) : Option VSCodeStatus :=
  st.vscodeStatus.map (fun e => e.value)

/-- Source `setDiscordActivity`: reads the previous status, computes the
online/offline transition, then writes the activity payload, the status
record and the heartbeat mark (all plain `SET`, no TTL). -/
def setDiscordActivity (activity : UserActivity) (st : RedisState) (now : Nat) : RedisState :=
  let currentStatus := getDiscordStatus st now
  let statusUpdate : DiscordStatus :=
    match currentStatus with
    | some cs =>
      if cs.current_status == "offline" && activity.status != "offline" then
        { current_status := activity.status, last_seen := now
          online_since := some now, offline_since := none }
      else if cs.current_status != "offline" && activity.status == "offline" then
        { current_status := activity.status, last_seen := now
          online_since := cs.online_since, offline_since := some now }
      else
        { current_status := activity.status, last_seen := now
          online_since := cs.online_since, offline_since := cs.offline_since }
    | none =>
      if activity.status != "offline" then
        { current_status := activity.status, last_seen := now
          online_since := some now, offline_since := none }
      else
        { current_status := activity.status, last_seen := now
          online_since := none, offline_since := some now }
  { st with
    discordActivity := some ⟨activity, none⟩
    discordStatus := some ⟨statusUpdate, none⟩
    discordHeartbeat := some ⟨now, none⟩ }

/-- Source `markDiscordOffline`: writes `discord:status` with
`current_status = "offline"`, `offline_since = now`, preserving the
previous `online_since`. -/
def markDiscordOffline (st : RedisState) (now : Nat) : RedisState :=
  let currentStatus := getDiscordStatus st now
  let statusUpdate : DiscordStatus :=
    { current_status := "offline", last_seen := now
      online_since := currentStatus.bind (fun c => c.online_since)
      offline_since := some now }
  { st with discordStatus := some ⟨statusUpdate, none⟩ }

/-- Source `markVSCodeOffline`: writes `vscode:status` with
`is_active = false`, `offline_since = now`,
`online_since = currentSession?.startTime || currentStatus?.online_since`. -/
def markVSCodeOffline (st : RedisState) (now : Nat) : RedisState :=
  let currentStatus := getVSCodeStatus st now
  let currentSession := getVSCodeSession st now
  let statusUpdate : VSCodeStatus :=
    { is_active := false, last_seen := now
      online_since := jsOrNat (currentSession.map (fun s => s.startTime))
        (currentStatus.bind (fun c => c.online_since))
      offline_since := some now
      sessionId := currentStatus.bind (fun c => c.sessionId) }
  { st with vscodeStatus := some ⟨statusUpdate, none⟩ }

/-- Source `startVSCodeSession`: overwrites `vscode:session` with a fresh
active session and refreshes the heartbeat mark (both plain `SET`). -/
def startVSCodeSession (sessionId : String) (st : RedisState) (now : Nat) : RedisState :=
  let sessionData : Session :=
    { sessionId := sessionId, startTime := now, lastHeartbeat := now
      status := "active", endTime := none, endReason := none }
  { st with
    vscodeSession := some ⟨sessionData, none⟩
    vscodeHeartbeat := some ⟨now, none⟩ }

/-- Source `updateVSCodeHeartbeat`: refreshes the heartbeat mark and, when
a session record exists, refreshes its `lastHeartbeat` and forces
`status = "active"` (plain `SET`, clearing any TTL). -/
def updateVSCodeHeartbeat (st : RedisState) (now : Nat) : RedisState :=
  let st1 := { st with vscodeHeartbeat := some ⟨now, none⟩ }
  match getVSCodeSession st1 now with
  | some s =>
    let refreshed : Session := { s with lastHeartbeat := now, status := "active" }
    { st1 with vscodeSession := some (Entry.mk refreshed none) }
  | none => st1

/-- Source `endVSCodeSession`: if a session record exists, stamps
`endTime`, `status = "ended"`, `endReason` and rewrites it with a
5-minute TTL (`SETEX 300`). -/
def endVSCodeSession (reason : String) (st : RedisState) (now : Nat) : RedisState :=
  match getVSCodeSession st now with
  | some s =>
    let ended : Session := { s with endTime := some now, status := "ended", endReason := some reason }
    { st with vscodeSession := some (Entry.mk ended (some (now + 300 * 1000))) }
  | none => st

/-- The session sub-object returned by `getVSCodeActivity`, including the
derived `duration`. -/
structure SessionView where
  sessionId : String
  startTime : Nat
  endTime : Option Nat
  status : String
  duration : Int
deriving DecidableEq

/-- The `ActivityWithTimestamps` result of `getVSCodeActivity`. -/
structure VSCodeActivityView where
  activity : Option VSCodeActivity
  online_since : Option Nat
  offline_since : Option Nat
  last_seen : Option Nat
  session : Option SessionView
deriving DecidableEq

/-- Source `getVSCodeActivity`: merges the stored payload with the status
and session records; returns `null` only when neither a payload nor a
session is present.  The JavaScript truthiness of `session.endTime`
(`endTime ? endTime - startTime : Date.now() - startTime`) is modelled
explicitly. -/
def getVSCodeActivity (st : RedisState) (now : Nat) : Option VSCodeActivityView :=
  let activityData := readEntry now st.vscodeActivity
  let status := readEntry now st.vscodeStatus
  let session := readEntry now st.vscodeSession
  if activityData.isNone && session.isNone then none
  else some
    { activity := activityData
      online_since := jsOrNat (status.bind (fun s => s.online_since))
        (session.map (fun s => s.startTime))
      offline_since := jsOrNat (status.bind (fun s => s.offline_since))
        (session.bind (fun s => s.endTime))
      last_seen := jsOrNat (status.map (fun s => s.last_seen))
        (jsOrNat (session.map (fun s => s.lastHeartbeat))
          (activityData.map (fun a => a.timestamp)))
      session := session.map (fun s =>
        { sessionId := s.sessionId, startTime := s.startTime
          endTime := s.endTime, status := s.status
          duration :=
            match s.endTime with
            | some e =>
              if e != 0 then (e : Int) - (s.startTime : Int)
              else (now : Int) - (s.startTime : Int)
            | none => (now : Int) - (s.startTime : Int) }) }

/-- Source `isSimilarVSCodeActivity`: meaningful fields identical and
payload timestamps within 3 seconds of each other. -/
def isSimilarVSCodeActivity (current new_activity : VSCodeActivity) : Bool :=
  current.workspace.name == new_activity.workspace.name &&
  current.editor.fileName == new_activity.editor.fileName &&
  current.editor.lineNumber == new_activity.editor.lineNumber &&
  current.editor.columnNumber == new_activity.editor.columnNumber &&
  decide (((current.timestamp : Int) - (new_activity.timestamp : Int)).natAbs < 3000)

/-- The effective session id: `activity.sessionId || 'default'` (an empty
string is falsy). -/
def sessionIdOf (activity : VSCodeActivity) : String :=
  if activity.sessionId == "" then "default" else activity.sessionId

/-- Reading the rate-limit key `vscode:activity:ratelimit:{sessionId}`. -/
def getRateLimit (st : RedisState) (sessionId : String) (now : Nat) : Option Nat :=
  readEntry now (st.rateLimit.lookup sessionId)

/-- Writing the rate-limit key for one session, replacing any previous
entry for the same session id. -/
def setRateLimitKey (st : RedisState) (sessionId : String) (e : Entry Nat) : RedisState :=
  { st with rateLimit := (sessionId, e) :: st.rateLimit.filter (fun p => p.1 != sessionId) }

/-- Whether the code's rate-limit gate rejects an update for `sessionId`
arriving at `now`: a rate-limit key is present and less than 2000 ms old. -/
def isRateLimited (st : RedisState) (sessionId : String) (now : Nat) : Bool :=
  match getRateLimit st sessionId now with
  | some lastUpdate => decide (now - lastUpdate < 2000)
  | none => false

/-- The result record of `setVSCodeActivity`
(`{ updated: boolean; reason?: string }`), with the reason strings kept
structured. -/
inductive UpdateReason where
  | rateLimited (retryAfterMs : Nat)
  | noMeaningfulChange
deriving DecidableEq

/-- The reason strings as rendered by the source. -/
def renderReason : UpdateReason → String
  | .rateLimited ms => "Rate limited. Next update allowed in " ++ toString ms ++ "ms"
  | .noMeaningfulChange => "No meaningful change detected, heartbeat updated"

/-- Return type of `setVSCodeActivity`. -/
structure UpdateResult where
  updated : Bool
  reason : Option UpdateReason
deriving DecidableEq

/-- Tail of `setVSCodeActivity` after both gates have passed: possibly
start a new session, compute the status transition (note that
`currentSession` is the session read before the possible restart), write
payload, status and the 2-second rate-limit key, then refresh the
heartbeat. -/
def setVSCodeActivityStore (activity : VSCodeActivity) (sessionId : String)
    (st : RedisState) (now : Nat) : Except Unit (UpdateResult × RedisState) :=
  let currentSession := getVSCodeSession st now
  let st1 :=
    match currentSession with
    | none => startVSCodeSession sessionId st now
    | some s =>
      if s.sessionId != sessionId || s.status == "ended" then
        startVSCodeSession sessionId st now
      else st
  let currentStatus := getVSCodeStatus st1 now
  let statusUpdate : VSCodeStatus :=
    match currentStatus with
    | some cs =>
      if !cs.is_active || cs.sessionId != some sessionId then
        { is_active := true, last_seen := now, sessionId := some sessionId
          online_since := some (jsOrNatD (currentSession.map (fun s => s.startTime)) now)
          offline_since := none }
      else
        { is_active := true, last_seen := now, sessionId := some sessionId
          online_since := some (jsOrNatD (currentSession.map (fun s => s.startTime))
            (jsOrNatD cs.online_since now))
          offline_since := none }
    | none =>
      { is_active := true, last_seen := now, sessionId := some sessionId
        online_since := some (jsOrNatD (currentSession.map (fun s => s.startTime)) now)
        offline_since := none }
  let st2 := { st1 with
    vscodeActivity := some ⟨activity, none⟩
    vscodeStatus := some ⟨statusUpdate, none⟩ }
  let st3 := setRateLimitKey st2 sessionId ⟨now, some (now + 2 * 1000)⟩
  let st4 := updateVSCodeHeartbeat st3 now
  .ok ({ updated := true, reason := none }, st4)

/-- Middle part of `setVSCodeActivity`: the similarity gate.  When the
stored view exists but its `activity` field is `null` (session present
without a payload), `isSimilarVSCodeActivity(null, activity)` raises a
`TypeError`, modelled as `.error`. -/
def setVSCodeActivityChecked (activity : VSCodeActivity) (sessionId : String)
    (st : RedisState) (now : Nat) : Except Unit (UpdateResult × RedisState) :=
  match getVSCodeActivity st now with
  | some currentActivity =>
    match currentActivity.activity with
    | none => .error ()
    | some cur =>
      if isSimilarVSCodeActivity cur activity then
        .ok ({ updated := false, reason := some .noMeaningfulChange },
             updateVSCodeHeartbeat st now)
      else setVSCodeActivityStore activity sessionId st now
  | none => setVSCodeActivityStore activity sessionId st now

/-- Source `setVSCodeActivity`: rate-limit gate, similarity gate, then the
accepted-update path. -/
def setVSCodeActivity (activity : VSCodeActivity) (st : RedisState) (now : Nat) :
    Except Unit (UpdateResult × RedisState) :=
  let sessionId := sessionIdOf activity
  match getRateLimit st sessionId now with
  | some lastUpdate =>
    if now - lastUpdate < 2000 then
      .ok ({ updated := false, reason := some (.rateLimited (2000 - (now - lastUpdate))) }, st)
    else setVSCodeActivityChecked activity sessionId st now
  | none => setVSCodeActivityChecked activity sessionId st now

/-- The VSCode branch of `checkHeartbeats`: on a stale mark it ends the
session with reason `timeout`, marks the source offline and reports that
the offline callback was invoked. -/
def checkVSCodeHeartbeat (st : RedisState) (now : Nat) : RedisState × Bool :=
  match readEntry now st.vscodeHeartbeat with
  | some lastHeartbeat =>
    if 30000 < now - lastHeartbeat then
      (markVSCodeOffline (endVSCodeSession "timeout" st now) now, true)
    else (st, false)
  | none => (st, false)

/-- The Discord branch of `checkHeartbeats`. -/
def checkDiscordHeartbeat (st : RedisState) (now : Nat) : RedisState × Bool :=
  match readEntry now st.discordHeartbeat with
  | some lastHeartbeat =>
    if 30000 < now - lastHeartbeat then
      (markDiscordOffline st now, true)
    else (st, false)
  | none => (st, false)

/-- Source `checkHeartbeats` (one tick of the 5-second poll loop): the two
booleans report whether the VSCode resp. Discord offline callback — the
offline broadcast in `server.ts` — fired during this tick. -/
def checkHeartbeats (st : RedisState) (now : Nat) : RedisState × Bool × Bool :=
  let v := checkVSCodeHeartbeat st now
  let d := checkDiscordHeartbeat v.1 now
  (d.1, v.2, d.2)

/-- Whether a character list begins with a pattern. -/
def listStartsWith : List Char → List Char → Bool
  | _, [] => true
  | [], _ :: _ => false
  | c :: cs, p :: ps => c == p && listStartsWith cs ps

/-- JavaScript `String.replace(pat, '')`: removes the first occurrence of
`pat`. -/
def replaceFirstList : List Char → List Char → List Char
  | [], _ => []
  | c :: cs, pat =>
    if listStartsWith (c :: cs) pat then (c :: cs).drop pat.length
    else c :: replaceFirstList cs pat

/-- String wrapper around `replaceFirstList`. -/
def replaceFirst (s pat : String) : String :=
  String.mk (replaceFirstList s.data pat.data)

/-- The credential extraction in each protected route:
`authHeader?.replace('Bearer ', '') || authHeader?.replace('ApiKey ', '')`
(a missing header is the empty string under uWS `getHeader`). -/
def extractApiKey (authHeader : String) : String :=
  let b := replaceFirst authHeader "Bearer "
  if b != "" then b else replaceFirst authHeader "ApiKey "

/-- One `vscode-update` SSE message as built by `broadcastVSCodeActivity`:
the stored payload spread together with the lifecycle timestamps. -/
structure VSCodeUpdateEvent where
  activity : Option VSCodeActivity
  online_since : Option Nat
  offline_since : Option Nat
  last_seen : Option Nat
deriving DecidableEq

/-- Source `broadcastVSCodeActivity`, viewed from a single live
subscriber: re-reads the stored view and emits one `vscode-update` event
(none when nothing is stored). -/
def broadcastVSCodeActivity (st : RedisState) (now : Nat) : List VSCodeUpdateEvent :=
  match getVSCodeActivity st now with
  | none => []
  | some d =>
    [{ activity := d.activity, online_since := d.online_since
       offline_since := d.offline_since, last_seen := d.last_seen }]

/-- Source `processVSCodeActivity`: parse (a malformed body is `none`),
store, and answer `200` with a broadcast on acceptance, `202` with the
rejection reason otherwise, `400` on a parse failure or a thrown error. -/
def processVSCodeActivity (body : Option VSCodeActivity) (st : RedisState) (now : Nat) :
    Nat × Option UpdateReason × RedisState × List VSCodeUpdateEvent :=
  match body with
  | none => (400, none, st, [])
  | some activity =>
    match setVSCodeActivity activity st now with
    | .error _ => (400, none, st, [])
    | .ok (updateResult, st1) =>
      if updateResult.updated then
        (200, none, st1, broadcastVSCodeActivity st1 now)
      else
        (202, updateResult.reason, st1, [])

/-- The `POST /vscode-activity` route: the shared-secret check happens
before the body is read; an invalid or missing credential answers `401`. -/
def vscodeActivityRoute (authHeader apiKey : String) (body : Option VSCodeActivity)
    (st : RedisState) (now : Nat) :
    Nat × Option UpdateReason × RedisState × List VSCodeUpdateEvent :=
  let apiKeyFromHeader := extractApiKey authHeader
  if apiKeyFromHeader == "" || apiKeyFromHeader != apiKey then
    (401, none, st, [])
  else processVSCodeActivity body st now

/-! Concrete inputs used by the witnesses and counterexamples below. -/

/-- A concrete editor-activity payload at a given cursor line and payload
timestamp, session id `s1`. -/
def mkVSCodeActivity (line ts : Nat) : VSCodeActivity :=
  { workspace := { name := "ws", path := "/ws", gitRepo := none }
    editor := { fileName := "main.ts", filePath := "/ws/main.ts", language := "typescript"
                lineNumber := line, columnNumber := 1
                selection := { start := { line := line, character := 1 }
                               stop := { line := line, character := 1 } } }
    timestamp := ts, sessionId := "s1" }

/-- A state whose two heartbeat marks were last written at time 0. -/
def c1State : RedisState :=
  { emptyState with vscodeHeartbeat := some ⟨0, none⟩, discordHeartbeat := some ⟨0, none⟩ }

/-- First poll-loop tick past the 30 s timeout. -/
def c1p1 : RedisState × Bool × Bool := checkHeartbeats c1State 31000

/-- Second (5 s later) poll-loop tick, still past the timeout. -/
def c1p2 : RedisState × Bool × Bool := checkHeartbeats c1p1.1 36000

/-- A concrete online Discord presence payload. -/
def discordOnlineAct : UserActivity :=
  { userId := "u", username := "n", discriminator := "0", status := "online"
    activities := [], timestamp := 0 }

/-- The same user going offline at t = 5000. -/
def discordOfflineAct : UserActivity :=
  { discordOnlineAct with status := "offline", timestamp := 5000 }

/-- State after the user came online at t = 0. -/
def c2s1 : RedisState := setDiscordActivity discordOnlineAct emptyState 0

/-- State after the user additionally went offline at t = 5000. -/
def c2s2 : RedisState := setDiscordActivity discordOfflineAct c2s1 5000

/-- State after one `markDiscordOffline` at t = 0. -/
def c3s1 : RedisState := markDiscordOffline emptyState 0

/-- State after a second `markDiscordOffline` at t = 5000. -/
def c3s2 : RedisState := markDiscordOffline c3s1 5000

/-- Scenario request 1: line 10 at t = 0 against an empty store. -/
def c5r1 : Nat × Option UpdateReason × RedisState × List VSCodeUpdateEvent :=
  vscodeActivityRoute "Bearer k" "k" (some (mkVSCodeActivity 10 0)) emptyState 0

/-- Scenario request 2: same meaningful fields, t = 1000. -/
def c5r2 : Nat × Option UpdateReason × RedisState × List VSCodeUpdateEvent :=
  vscodeActivityRoute "Bearer k" "k" (some (mkVSCodeActivity 10 1000)) c5r1.2.2.1 1000

/-- Scenario request 3: line 50 at t = 6000. -/
def c5r3 : Nat × Option UpdateReason × RedisState × List VSCodeUpdateEvent :=
  vscodeActivityRoute "Bearer k" "k" (some (mkVSCodeActivity 50 6000)) c5r2.2.2.1 6000

/-- The result of one accepted editor-activity update on an empty store at
t = 0 (the `.error` branch is unreachable here). -/
def acceptedResult : UpdateResult × RedisState :=
  match setVSCodeActivity (mkVSCodeActivity 10 0) emptyState 0 with
  | .ok p => p
  | .error _ => ({ updated := false, reason := none }, emptyState)

/-- Store state right after that accepted update. -/
def c6state : RedisState := acceptedResult.2

/-- A store holding a payload at line 10, timestamp 0, and no rate-limit
key. -/
def c7state : RedisState :=
  { emptyState with vscodeActivity := some ⟨mkVSCodeActivity 10 0, none⟩ }

/-! Helper lemmas shared by several proofs. -/

/-- JavaScript `a || (a || b)` collapses to `a || b`. -/
theorem jsOrNat_absorb (a b : Option Nat) : jsOrNat a (jsOrNat a b) = jsOrNat a b := by
  by_cases h : jsTruthyNat a = true <;> simp [jsOrNat, h]

/-- After `updateVSCodeHeartbeat` the heartbeat mark holds `now` with no
expiry, whether or not a session record exists. -/
theorem updateVSCodeHeartbeat_mark (st : RedisState) (now : Nat) :
    (updateVSCodeHeartbeat st now).vscodeHeartbeat = some ⟨now, none⟩ := by
  unfold updateVSCodeHeartbeat
  dsimp only
  split <;> rfl

/-! Claim theorems. -/

/-- C1: the claim says the offline transition and its broadcast fire
exactly once after a heartbeat timeout.  Evaluating `checkHeartbeats` at
the failing input (marks last written at T = 0, polls at t = 31000 and
t = 36000) shows both offline callbacks fire on BOTH polls, and the stored
`offline_since` is rewritten from 31000 to 36000 by the second poll: the
mark is never cleared or refreshed on timeout, so the detection repeats on
every tick. -/
theorem heartbeat_timeout_callback_refires :
    c1p1.2.1 = true ∧ c1p1.2.2 = true ∧ c1p2.2.1 = true ∧ c1p2.2.2 = true ∧
    (storedVSCodeStatus c1p1.1).map (fun s => s.offline_since) = some (some 31000) ∧
    (storedVSCodeStatus c1p2.1).map (fun s => s.offline_since) = some (some 36000) ∧
    (storedDiscordStatus c1p1.1).map (fun s => s.offline_since) = some (some 31000) ∧
    (storedDiscordStatus c1p2.1).map (fun s => s.offline_since) = some (some 36000) :=
  ⟨rfl, rfl, rfl, rfl, rfl, rfl, rfl, rfl⟩

/-- C2 counterexample: starting from an empty store, `setDiscordActivity`
with an online payload at t = 0 and then an offline payload at t = 5000
leaves BOTH `online_since` and `offline_since` non-null, refuting the
claimed invariant at this concrete input. -/
theorem discord_both_timestamps_set_concrete :
    (storedDiscordStatus c2s2).map (fun s => (s.online_since.isSome, s.offline_since.isSome))
      = some (true, true) ∧
    (storedDiscordStatus c2s2).map (fun s => (s.online_since, s.offline_since))
      = some (some 0, some 5000) :=
  ⟨rfl, rfl⟩

/-- C2 (amended): on each `setDiscordActivity` call, offline-to-online
sets `online_since := now` and clears `offline_since`; online-to-offline
sets `offline_since := now` but PRESERVES the previous `online_since`
instead of clearing it (so both may be non-null while offline); calls that
do not change the status carry both timestamps over. -/
theorem setDiscordActivity_transition_cases (st : RedisState) (a : UserActivity) (now : Nat)
    (cs : DiscordStatus) (hcs : getDiscordStatus st now = some cs) :
    (cs.current_status = "offline" → a.status ≠ "offline" →
      storedDiscordStatus (setDiscordActivity a st now)
        = some { current_status := a.status, last_seen := now
                 online_since := some now, offline_since := none }) ∧
    (cs.current_status ≠ "offline" → a.status = "offline" →
      storedDiscordStatus (setDiscordActivity a st now)
        = some { current_status := a.status, last_seen := now
                 online_since := cs.online_since, offline_since := some now }) ∧
    ((cs.current_status = "offline" ↔ a.status = "offline") →
      storedDiscordStatus (setDiscordActivity a st now)
        = some { current_status := a.status, last_seen := now
                 online_since := cs.online_since, offline_since := cs.offline_since }) := by
  refine ⟨fun h1 h2 => ?_, fun h1 h2 => ?_, fun h => ?_⟩
  · simp [setDiscordActivity, storedDiscordStatus, hcs, h1, h2]
  · simp [setDiscordActivity, storedDiscordStatus, hcs, h1, h2]
  · by_cases hc : cs.current_status = "offline"
    · have ha : a.status = "offline" := h.mp hc
      simp [setDiscordActivity, storedDiscordStatus, hcs, hc, ha]
    · have ha : a.status ≠ "offline" := fun w => hc (h.mpr w)
      simp [setDiscordActivity, storedDiscordStatus, hcs, hc, ha]

/-- C2 amended-claim witness: the online-to-offline case at the concrete
run used for the counterexample. -/
theorem setDiscordActivity_transition_cases_witness :
    storedDiscordStatus c2s2
      = some { current_status := "offline", last_seen := 5000
               online_since := some 0, offline_since := some 5000 } :=
  (setDiscordActivity_transition_cases c2s1 discordOfflineAct 5000
    { current_status := "online", last_seen := 0, online_since := some 0, offline_since := none }
    rfl).2.1 (by decide) rfl

/-- C3 counterexample: `markDiscordOffline` at t = 0 and again at
t = 5000 stores `offline_since = 5000`, while a single call stores
`offline_since = 0`: the repeated call is not a no-op. -/
theorem markDiscordOffline_repeat_changes_offline_since :
    (storedDiscordStatus c3s1).map (fun s => s.offline_since) = some (some 0) ∧
    (storedDiscordStatus c3s2).map (fun s => s.offline_since) = some (some 5000) ∧
    (storedDiscordStatus c3s2).map (fun s => s.offline_since)
      ≠ (storedDiscordStatus c3s1).map (fun s => s.offline_since) :=
  ⟨rfl, rfl, by decide⟩

/-- C3 (amended): `markOffline` is idempotent only when the repeated call
happens at the same wall-clock time (both sources, full store state
equality); a repeat at a later time t₂ rewrites `offline_since` and
`last_seen` to t₂ instead of being a no-op. -/
theorem markOffline_idempotent_same_tick (st : RedisState) (t₁ t₂ : Nat) :
    markDiscordOffline (markDiscordOffline st t₁) t₁ = markDiscordOffline st t₁ ∧
    markVSCodeOffline (markVSCodeOffline st t₁) t₁ = markVSCodeOffline st t₁ ∧
    (storedDiscordStatus (markDiscordOffline (markDiscordOffline st t₁) t₂)).map
        (fun s => (s.offline_since, s.last_seen)) = some (some t₂, t₂) ∧
    (storedVSCodeStatus (markVSCodeOffline (markVSCodeOffline st t₁) t₂)).map
        (fun s => (s.offline_since, s.last_seen)) = some (some t₂, t₂) := by
  refine ⟨?_, ?_, rfl, rfl⟩
  · simp [markDiscordOffline, getDiscordStatus, readEntry]
  · simp [markVSCodeOffline, getVSCodeStatus, getVSCodeSession, readEntry, jsOrNat_absorb]

/-- C10: `markVSCodeOffline` writes only `vscode:status` and
`markDiscordOffline` writes only `discord:status`; every other logical key
(activity payloads, heartbeat marks, the session record and the rate-limit
keys) is unchanged. -/
theorem markOffline_writes_only_status (st : RedisState) (now : Nat) :
    ((markVSCodeOffline st now).vscodeActivity = st.vscodeActivity ∧
     (markVSCodeOffline st now).vscodeHeartbeat = st.vscodeHeartbeat ∧
     (markVSCodeOffline st now).vscodeSession = st.vscodeSession ∧
     (markVSCodeOffline st now).rateLimit = st.rateLimit ∧
     (markVSCodeOffline st now).discordActivity = st.discordActivity ∧
     (markVSCodeOffline st now).discordStatus = st.discordStatus ∧
     (markVSCodeOffline st now).discordHeartbeat = st.discordHeartbeat) ∧
    ((markDiscordOffline st now).discordActivity = st.discordActivity ∧
     (markDiscordOffline st now).discordHeartbeat = st.discordHeartbeat ∧
     (markDiscordOffline st now).vscodeActivity = st.vscodeActivity ∧
     (markDiscordOffline st now).vscodeStatus = st.vscodeStatus ∧
     (markDiscordOffline st now).vscodeHeartbeat = st.vscodeHeartbeat ∧
     (markDiscordOffline st now).vscodeSession = st.vscodeSession ∧
     (markDiscordOffline st now).rateLimit = st.rateLimit) :=
  ⟨⟨rfl, rfl, rfl, rfl, rfl, rfl, rfl⟩, rfl, rfl, rfl, rfl, rfl, rfl, rfl⟩

/-- C4: starting a session (as `startVSCodeSession` does when a fresh or
different `sessionId` arrives, including via `setVSCodeActivity`) replaces
the stored session with a fresh active record, and the result is
observationally identical to first ending the old session with
`endReason = manual` and then starting the new one — the sense in which
the old session is "implicitly ended with reason manual before the new
one begins". -/
theorem startVSCodeSession_implicit_end_equiv (sid : String) (st : RedisState) (now : Nat) :
    startVSCodeSession sid st now
      = startVSCodeSession sid (endVSCodeSession "manual" st now) now ∧
    (startVSCodeSession sid st now).vscodeSession
      = some ⟨{ sessionId := sid, startTime := now, lastHeartbeat := now
                status := "active", endTime := none, endReason := none }, none⟩ := by
  refine ⟨?_, rfl⟩
  unfold endVSCodeSession
  split <;> rfl

/-- C5 counterexample: in the three-request scenario the second request
(same payload at t = 1000) is rejected by the 2-second rate-limit gate,
which runs BEFORE the similarity gate, so its 202 response carries the
rate-limited reason (retry in 1000 ms), not the claimed "no meaningful
change" reason. -/
theorem scenario_second_reason_is_rate_limited :
    c5r2.2.1 = some (.rateLimited 1000) ∧
    c5r2.2.1 ≠ some .noMeaningfulChange :=
  ⟨rfl, by decide⟩

/-- C5 (amended): the scenario yields responses 200, 202, 200, where the
202 carries the rate-limited reason; a subscriber connected since t = 0
observes exactly two `vscode-update` events, with line numbers 10 and 50,
never three. -/
theorem scenario_two_updates_broadcast :
    c5r1.1 = 200 ∧ c5r2.1 = 202 ∧
    c5r2.2.1 = some (.rateLimited 1000) ∧ c5r3.1 = 200 ∧
    (c5r1.2.2.2 ++ c5r2.2.2.2 ++ c5r3.2.2.2).map
        (fun e => e.activity.map (fun a => a.editor.lineNumber))
      = [some 10, some 50] :=
  ⟨rfl, rfl, rfl, rfl, rfl⟩

/-- C6: an update for a session whose rate-limit key (written by the last
accepted update at t₀) is still live and less than 2000 ms old is rejected
with the structured rate-limited reason, as a successful result rather
than an error, and the entire store state — in particular the stored
activity payload — is unchanged. -/
theorem rate_limited_update_rejected (a : VSCodeActivity) (st : RedisState) (now t₀ : Nat)
    (hrl : getRateLimit st (sessionIdOf a) now = some t₀)
    (hcool : now - t₀ < 2000) :
    setVSCodeActivity a st now
      = .ok ({ updated := false, reason := some (.rateLimited (2000 - (now - t₀))) }, st) := by
  simp [setVSCodeActivity, hrl, hcool]

/-- C6 witness: the accepted update at t = 0 followed by a second update
at t = 1000 hits the cooldown and leaves the state untouched. -/
theorem rate_limited_update_rejected_witness :
    getRateLimit c6state (sessionIdOf (mkVSCodeActivity 10 1000)) 1000 = some 0 ∧
    1000 - 0 < 2000 ∧
    setVSCodeActivity (mkVSCodeActivity 10 1000) c6state 1000
      = .ok ({ updated := false, reason := some (.rateLimited 1000) }, c6state) :=
  ⟨rfl, by decide,
   rate_limited_update_rejected (mkVSCodeActivity 10 1000) c6state 1000 0 rfl (by decide)⟩

/-- C7: once past the rate-limit gate, an update whose meaningful fields
(workspace name, file name, line, column) equal the stored payload's and
whose timestamp is within the 3-second similarity window is rejected with
the "no meaningful change" reason, while the heartbeat mark is still
advanced to `now`. -/
theorem similar_update_rejected_refreshes_heartbeat
    (a prev : VSCodeActivity) (st : RedisState) (now : Nat)
    (hgate : isRateLimited st (sessionIdOf a) now = false)
    (hact : readEntry now st.vscodeActivity = some prev)
    (hw : prev.workspace.name = a.workspace.name)
    (hf : prev.editor.fileName = a.editor.fileName)
    (hl : prev.editor.lineNumber = a.editor.lineNumber)
    (hc : prev.editor.columnNumber = a.editor.columnNumber)
    (ht : ((prev.timestamp : Int) - (a.timestamp : Int)).natAbs < 3000) :
    setVSCodeActivity a st now
      = .ok ({ updated := false, reason := some .noMeaningfulChange },
             updateVSCodeHeartbeat st now) ∧
    (updateVSCodeHeartbeat st now).vscodeHeartbeat = some ⟨now, none⟩ := by
  have hsim : isSimilarVSCodeActivity prev a = true := by
    simp [isSimilarVSCodeActivity, hw, hf, hl, hc, ht]
  refine ⟨?_, updateVSCodeHeartbeat_mark st now⟩
  have hchk : setVSCodeActivityChecked a (sessionIdOf a) st now
      = .ok ({ updated := false, reason := some .noMeaningfulChange },
             updateVSCodeHeartbeat st now) := by
    simp [setVSCodeActivityChecked, getVSCodeActivity, hact, hsim]
  cases hg : getRateLimit st (sessionIdOf a) now with
  | none => simp [setVSCodeActivity, hg, hchk]
  | some t =>
    have hcool : ¬ (now - t < 2000) := by
      simpa [isRateLimited, hg] using hgate
    simp [setVSCodeActivity, hg, hcool, hchk]

/-- C7 witness: a store holding the payload at line 10 / timestamp 0 and
no rate-limit key rejects the identical payload at t = 1000 while the mark
advances to 1000. -/
theorem similar_update_rejected_refreshes_heartbeat_witness :
    isRateLimited c7state (sessionIdOf (mkVSCodeActivity 10 1000)) 1000 = false ∧
    readEntry 1000 c7state.vscodeActivity = some (mkVSCodeActivity 10 0) ∧
    setVSCodeActivity (mkVSCodeActivity 10 1000) c7state 1000
      = .ok ({ updated := false, reason := some .noMeaningfulChange },
             updateVSCodeHeartbeat c7state 1000) ∧
    (updateVSCodeHeartbeat c7state 1000).vscodeHeartbeat = some ⟨1000, none⟩ := by
  have h := similar_update_rejected_refreshes_heartbeat
    (mkVSCodeActivity 10 1000) (mkVSCodeActivity 10 0) c7state 1000
    rfl rfl rfl rfl rfl rfl (by decide)
  exact ⟨rfl, rfl, h.1, h.2⟩

/-- C8: the duration exposed by `getVSCodeActivity` is
`(endTime ?? now) - startTime`: ending a session started at T₁ with
`end(reason = manual)` at T₂ ≠ 0 exposes duration T₂ - T₁ as long as the
ended record is still within its 5-minute retention, and a subsequent
start with a new sessionId at T₃ exposes the independent running duration
t' - T₃. -/
theorem session_duration_exposed (st : RedisState) (sid sid2 : String)
    (T₁ T₂ T₃ t t' : Nat) (hT₂ : T₂ ≠ 0) (hret : t < T₂ + 300 * 1000) :
    (((getVSCodeActivity (endVSCodeSession "manual" (startVSCodeSession sid st T₁) T₂) t).bind
        (fun d => d.session)).map (fun s => s.duration))
      = some ((T₂ : Int) - (T₁ : Int)) ∧
    (((getVSCodeActivity (startVSCodeSession sid2
          (endVSCodeSession "manual" (startVSCodeSession sid st T₁) T₂) T₃) t').bind
        (fun d => d.session)).map (fun s => s.duration))
      = some ((t' : Int) - (T₃ : Int)) := by
  constructor
  · simp [getVSCodeActivity, endVSCodeSession, startVSCodeSession, getVSCodeSession,
          readEntry, hret, hT₂]
  · simp [getVSCodeActivity, endVSCodeSession, startVSCodeSession, getVSCodeSession,
          readEntry]

/-- C8 witness: start at 100, manual end at 600 gives duration 500; a new
session started at 700 read at 900 gives duration 200. -/
theorem session_duration_exposed_witness :
    (((getVSCodeActivity (endVSCodeSession "manual" (startVSCodeSession "s1" emptyState 100) 600) 600).bind
        (fun d => d.session)).map (fun s => s.duration)) = some 500 ∧
    (((getVSCodeActivity (startVSCodeSession "s2"
          (endVSCodeSession "manual" (startVSCodeSession "s1" emptyState 100) 600) 700) 900).bind
        (fun d => d.session)).map (fun s => s.duration)) = some 200 :=
  session_duration_exposed emptyState "s1" "s2" 100 600 700 600 900 (by decide) (by decide)

/-- C9: `POST /vscode-activity` answers 401 when the extracted credential
is empty or wrong (before reading the body), 400 for an authenticated but
malformed body, 202 for an authenticated well-formed update that is
rejected (rate-limited or deduped), and 200 for an accepted one. -/
theorem vscode_activity_route_statuses (authHeader apiKey : String)
    (body : Option VSCodeActivity) (st : RedisState) (now : Nat) :
    (extractApiKey authHeader = "" ∨ extractApiKey authHeader ≠ apiKey →
      (vscodeActivityRoute authHeader apiKey body st now).1 = 401) ∧
    (extractApiKey authHeader = apiKey → apiKey ≠ "" → body = none →
      (vscodeActivityRoute authHeader apiKey body st now).1 = 400) ∧
    (∀ a r st1, extractApiKey authHeader = apiKey → apiKey ≠ "" → body = some a →
      setVSCodeActivity a st now = .ok (r, st1) → r.updated = false →
      (vscodeActivityRoute authHeader apiKey body st now).1 = 202) ∧
    (∀ a r st1, extractApiKey authHeader = apiKey → apiKey ≠ "" → body = some a →
      setVSCodeActivity a st now = .ok (r, st1) → r.updated = true →
      (vscodeActivityRoute authHeader apiKey body st now).1 = 200) := by
  refine ⟨fun h => ?_, fun h1 h2 h3 => ?_,
          fun a r st1 h1 h2 h3 h4 h5 => ?_, fun a r st1 h1 h2 h3 h4 h5 => ?_⟩
  · rcases h with h | h <;> simp [vscodeActivityRoute, h]
  · simp [vscodeActivityRoute, processVSCodeActivity, h1, h2, h3]
  · simp [vscodeActivityRoute, processVSCodeActivity, h1, h2, h3, h4, h5]
  · simp [vscodeActivityRoute, processVSCodeActivity, h1, h2, h3, h4, h5]

/-- C9 witness: one concrete request per status code — wrong key gives
401, malformed body gives 400, a rate-limited update gives 202, an
accepted update gives 200. -/
theorem vscode_activity_route_statuses_witness :
    (vscodeActivityRoute "Bearer wrong" "k" (some (mkVSCodeActivity 10 0)) emptyState 0).1 = 401 ∧
    (vscodeActivityRoute "Bearer k" "k" none emptyState 0).1 = 400 ∧
    (vscodeActivityRoute "Bearer k" "k" (some (mkVSCodeActivity 10 1000)) c6state 1000).1 = 202 ∧
    (vscodeActivityRoute "Bearer k" "k" (some (mkVSCodeActivity 10 0)) emptyState 0).1 = 200 := by
  refine ⟨?_, ?_, ?_, ?_⟩
  · exact (vscode_activity_route_statuses "Bearer wrong" "k"
      (some (mkVSCodeActivity 10 0)) emptyState 0).1 (Or.inr (by decide))
  · exact (vscode_activity_route_statuses "Bearer k" "k" none emptyState 0).2.1
      rfl (by decide) rfl
  · exact (vscode_activity_route_statuses "Bearer k" "k"
      (some (mkVSCodeActivity 10 1000)) c6state 1000).2.2.1
      (mkVSCodeActivity 10 1000)
      { updated := false, reason := some (.rateLimited 1000) } c6state
      rfl (by decide) rfl rfl rfl
  · exact (vscode_activity_route_statuses "Bearer k" "k"
      (some (mkVSCodeActivity 10 0)) emptyState 0).2.2.2
      (mkVSCodeActivity 10 0) acceptedResult.1 acceptedResult.2
      rfl (by decide) rfl rfl rfl

end IsHeOnline
